import Mathlib

/-!
Verification of the async-job-client pipeline of the Sequence-Search-Venn-Diagram
repository (`hmmer_query.py`, `map_accessions.py`, `main.py`).

The HTTP layer is modelled by making the sequence of server responses an explicit
argument: a poller consumes one status string per loop iteration, and each embedded
function reports the HTTP requests it issues (as an event list or a call counter).
JSON documents are modelled by the inductive type `J`; Python `dict.get` /
`dict[...]` become `jGet` / `jIndex`, and `pandas.DataFrame` construction from a
list of per-row dicts becomes `pdDataFrame` (columns = ordered union of row keys,
which is empty for an empty row list, as in pandas).
-/

namespace VennSearch

/-- JSON-like values as delivered by the REST services: Python `None`, strings,
arrays and objects (an object is an ordered key/value list, first binding wins). -/
inductive J where
  | null
  | str (s : String)
  | arr (elems : List J)
  | obj (fields : List (String × J))

/-- Python runtime errors raised by the embedded code. -/
inductive PyErr where
  | keyError (key : String)
  | typeError
deriving DecidableEq

/-- Python `d.get(key, default)` on a JSON object; every document the source
applies it to is a JSON object. -/
def jGet (j : J) (key : String) (default : J) : J :=
  match j with
  | .obj fields => (fields.lookup key).getD default
  | _ => default

/-- Python `d[key]` on a JSON object: raises `KeyError` when the key is absent. -/
def jIndex (j : J) (key : String) : Except PyErr J :=
  match j with
  | .obj fields =>
    match fields.lookup key with
    | some v => .ok v
    | none => .error (.keyError key)
  | _ => .error .typeError

/-- The element list of a JSON array (the source only iterates values that are
JSON arrays or absent, in which case the `.get` default `[]` is used). -/
def jArr (j : J) : List J :=
  match j with
  | .arr elems => elems
  | _ => []

/-- HTTP requests issued by the pipeline, for tracing call order and counts. -/
inductive Ev where
  | postSubmit
  | getStatus
  | getResult
deriving DecidableEq

/-- Outcome of `hmmer_query.wait_for_completion`; `httpCalls` counts the GET
requests issued up to and including the final one. `exhausted` marks a status
stream that ran out before a terminal status (the real loop would poll forever). -/
inductive PollResult (α : Type) where
  | fetched (doc : α) (httpCalls : Nat)
  | retryExceeded (httpCalls : Nat)
  | unexpected (raw : String) (httpCalls : Nat)
  | exhausted

/-- Does the poll outcome correspond to the `RuntimeError` raised when the RETRY
budget is exhausted? -/
def PollResult.isRetryExceeded : PollResult α → Bool
  | .retryExceeded _ => true
  | _ => false

/-- Embedding of `hmmer_query.wait_for_completion` (src/hmmer_query.py lines 37-66).
`statuses` is the stream of `"status"` fields of the successive status-poll
responses (the source reads `data.get("status", "")`, so a response without the
field appears here as `""`); `resultDoc` is what the result endpoint returns.
The source tests `status in ("STARTED", "RUNNING", "STARTED")` — the duplicated
`"STARTED"` literal is kept. On `"SUCCESS"` one further GET fetches the result,
hence `calls + 2`; `"RETRY"` beyond `max_retries` and an unrecognized status both
raise after their own status GET, hence `calls + 1`. -/
def wait_for_completion (statuses : List String) (resultDoc : J)
    (max_retries : Nat) (retries : Nat) (calls : Nat) : PollResult J :=
  match statuses with
  | [] => .exhausted
  | status :: rest =>
    if status = "STARTED" ∨ status = "RUNNING" ∨ status = "STARTED" then
      wait_for_completion rest resultDoc max_retries retries (calls + 1)
    else if status = "RETRY" then
      if retries < max_retries then
        wait_for_completion rest resultDoc max_retries (retries + 1) (calls + 1)
      else
        .retryExceeded (calls + 1)
    else if status = "SUCCESS" then
      .fetched resultDoc (calls + 2)
    else
      .unexpected status (calls + 1)

/-- Embedding of `map_accessions.get_entry` (src/map_accessions.py lines 40-46):
each iteration issues one status GET via `check_status`; the loop breaks only on
`"FINISHED"` and otherwise sleeps and polls again, whatever the status was.
Returns the number of GETs issued when the loop breaks, `none` if the stream is
exhausted first (the real loop would poll forever). -/
def get_entry (statuses : List String) (calls : Nat) : Option Nat :=
  match statuses with
  | [] => none
  | s :: rest =>
    if s = "FINISHED" then some (calls + 1)
    else get_entry rest (calls + 1)

/-- Argument values as passed at a Python call site: the 3-argument form of
`str.startswith` takes start/end slice indices. -/
inductive PyObj where
  | none
  | int (n : Nat)
  | str (s : String)

/-- Python one-argument `s.startswith(pre)`, computed on the character lists. -/
def py_str_startswith (s pre : String) : Bool :=
  pre.toList.isPrefixOf s.toList

/-- Python `s.startswith(pre, start, stop)`: the positional `start`/`stop`
arguments must be integers (or `None`); passing a string raises `TypeError`
(`slice indices must be integers or None`). The integer case is modelled for
non-negative indices only — the source never reaches it. -/
def py_startswith (s pre : String) (start stop : PyObj) : Except PyErr Bool :=
  match start, stop with
  | .none, .none => .ok (py_str_startswith s pre)
  | .int a, .int b =>
    .ok (pre.toList.isPrefixOf ((s.toList.take b).drop a))
  | .int a, .none =>
    .ok (pre.toList.isPrefixOf (s.toList.drop a))
  | _, _ => .error .typeError

/-- Embedding of the per-hit classification inside `map_accessions.blast_mapping`
(src/map_accessions.py lines 89-93): `.ok true` when the hit is appended to the
to-be-mapped bucket, `.ok false` when it is skipped. The first branch tests
a single-argument startswith with "ref"; the second branch is the call
startswith("gb", "emb", "dbj"), which passes the strings "emb" and "dbj" as the
start/end slice indices. -/
def blast_classify (hit_id : String) : Except PyErr Bool := do
  if py_str_startswith hit_id "ref" then
    pure true
  else if (← py_startswith hit_id "gb" (.str "emb") (.str "dbj")) then
    pure true
  else
    pure false

/-- A pandas DataFrame as built by the source: the rows it was constructed from
(each a Python dict, i.e. an ordered key/value list) plus the derived columns. -/
structure DataFrame where
  columns : List String
  rows : List (List (String × J))

/-- Column index of `pd.DataFrame(list_of_dicts)`: the union of the row keys in
first-appearance order; in particular the empty row list yields no columns. -/
def dfColumns (rows : List (List (String × J))) : List String :=
  rows.foldl (fun acc r => acc ++ (r.map Prod.fst).filter (fun k => k ∉ acc)) []

/-- `pd.DataFrame(rows)` for a list of per-row dicts. -/
def pdDataFrame (rows : List (List (String × J))) : DataFrame :=
  ⟨dfColumns rows, rows⟩

/-- The row dict built for one hit by `hmmer_query.parse_results`
(src/hmmer_query.py lines 88-95): `metadata = hit.get("metadata", {})`, then a
fixed five-key dict whose values are `metadata.get(...)` (Python `None`, i.e.
`J.null`, when absent). -/
def hit_row (hit : J) : List (String × J) :=
  let metadata := jGet hit "metadata" (J.obj [])
  [("accession", jGet metadata "accession" J.null),
   ("identifier", jGet metadata "identifier" J.null),
   ("uniprot accession", jGet metadata "uniprot_accession" J.null),
   ("phylum", jGet metadata "phylum" J.null),
   ("species", jGet metadata "species" J.null)]

/-- Embedding of `hmmer_query.parse_results` (src/hmmer_query.py lines 73-99):
`result = results_json.get("result", {})`, `hits = result.get("hits", [])`, one
row per hit, then `pd.DataFrame(parsed_data)`. -/
def parse_results (results_json : J) : DataFrame :=
  let result := jGet results_json "result" (J.obj [])
  let hits := jArr (jGet result "hits" (J.arr []))
  pdDataFrame (hits.map hit_row)

/-- The fixed column set of the hmmer hit table. -/
def hmmer_columns : List String :=
  ["accession", "identifier", "uniprot accession", "phylum", "species"]

/-- The row dict built for one mapping entry by
`map_accessions.parse_mapped_results` (src/map_accessions.py lines 78-81):
`entry["from"]` and `entry["to"]` are direct subscripts, so a missing key raises
`KeyError`. -/
def map_row (entry : J) : Except PyErr (List (String × J)) := do
  let from_id ← jIndex entry "from"
  let to_id ← jIndex entry "to"
  pure [("uniprot", from_id), ("mapped_id", to_id)]

/-- The `for entry in results` loop of `parse_mapped_results`, accumulating one
row per entry and propagating the first `KeyError`. -/
def build_rows : List J → Except PyErr (List (List (String × J)))
  | [] => .ok []
  | entry :: rest => do
    let row ← map_row entry
    let rows ← build_rows rest
    pure (row :: rows)

/-- Embedding of `map_accessions.parse_mapped_results` (src/map_accessions.py
lines 73-84): reads `results` and `failedIds` (default `[]`), builds one row per
results entry, and returns the DataFrame together with the failed-ids list. -/
def parse_mapped_results (json_data : J) : Except PyErr (DataFrame × List J) := do
  let parsed ← build_rows (jArr (jGet json_data "results" (J.arr [])))
  pure (pdDataFrame parsed, jArr (jGet json_data "failedIds" (J.arr [])))

/-- The `"from"`-side identifiers of the mapped rows of a DataFrame (the values
of its `uniprot` column). -/
def df_from_ids (df : DataFrame) : List J :=
  df.rows.filterMap (fun r => r.lookup "uniprot")

/-- `pandas.Series.unique` order-preserving deduplication used on the accession
column in `submit_id_mapping`. -/
def dedupFirst (l : List String) : List String :=
  l.foldl (fun acc s => if s ∈ acc then acc else acc ++ [s]) []

/-- HTTP requests issued by one call of `submit_hmmer_search`: exactly one POST,
no loop and no retry. -/
def submit_hmmer_search_events : List Ev := [Ev.postSubmit]

/-- Embedding of `hmmer_query.submit_hmmer_search` (src/hmmer_query.py lines
16-30): builds the JSON payload `{"input": fasta_sequence, "database": "refprot"}`,
issues one POST, and returns `resp.json()["id"]`. The result is the triple
(payload sent, HTTP events, returned value). -/
def submit_hmmer_search (fasta_sequence : String) (resp : J) :
    List (String × J) × List Ev × Except PyErr J :=
  ([("input", J.str fasta_sequence), ("database", J.str "refprot")],
   submit_hmmer_search_events,
   jIndex resp "id")

/-- HTTP requests issued by one call of `submit_id_mapping`: exactly one POST. -/
def submit_id_mapping_events : List Ev := [Ev.postSubmit]

/-- Embedding of `map_accessions.submit_id_mapping` (src/map_accessions.py lines
16-34): `df["accession"].dropna().unique().tolist()` becomes dropping the `none`
entries of the accession column and deduplicating in first-appearance order; the
form payload is `{from, to, ids}` with the ids comma-joined; one POST is issued
and `response.json()["jobId"]` is returned. -/
def submit_id_mapping (from_db to_db : String) (accessionCol : List (Option String))
    (resp : J) : List (String × J) × List Ev × Except PyErr J :=
  let accession_list := dedupFirst (accessionCol.filterMap id)
  ([("from", J.str from_db), ("to", J.str to_db),
    ("ids", J.str (String.intercalate "," accession_list))],
   submit_id_mapping_events,
   jIndex resp "jobId")

/-- HTTP requests issued by `map_accessions.get_results`: one GET of the results
endpoint (src/map_accessions.py lines 63-67). -/
def get_results_events : List Ev := [Ev.getResult]

/-- The HTTP requests issued by the hmmer-to-RefSeq mapping step of the driver
script (src/main.py lines 58-59): `submit_id_mapping` immediately followed by
`get_results`; neither `get_entry` nor `check_status` is called in between. -/
def main_hmmer_mapping_events : List Ev :=
  submit_id_mapping_events ++ get_results_events

/-! Helper lemmas shared by the claim theorems. -/

/-- Consuming a prefix of in-progress and within-budget RETRY statuses advances
the poll loop without reaching a terminal outcome: the retry counter grows by the
number of RETRY statuses consumed and the call counter by the prefix length. -/
lemma wait_consume : ∀ (pre rest : List String) (doc : J) (mr r c : Nat),
    (∀ s ∈ pre, s = "STARTED" ∨ s = "RUNNING" ∨ s = "RETRY") →
    r + pre.count "RETRY" ≤ mr →
    wait_for_completion (pre ++ rest) doc mr r c
      = wait_for_completion rest doc mr (r + pre.count "RETRY") (c + pre.length) := by
  intro pre
  induction pre with
  | nil => intro rest doc mr r c _ _; simp
  | cons s t ih =>
    intro rest doc mr r c h hb
    have hs := h s (List.mem_cons_self s t)
    have ht : ∀ x ∈ t, x = "STARTED" ∨ x = "RUNNING" ∨ x = "RETRY" :=
      fun x hx => h x (List.mem_cons_of_mem s hx)
    rcases hs with hs | hs | hs
    · subst hs
      have hcount : List.count "RETRY" ("STARTED" :: t) = List.count "RETRY" t := by
        simp [List.count_cons]
      rw [List.cons_append]
      have step : wait_for_completion ("STARTED" :: (t ++ rest)) doc mr r c
          = wait_for_completion (t ++ rest) doc mr r (c + 1) := rfl
      rw [step, ih rest doc mr r (c + 1) ht (by omega), hcount]
      congr 1
      simp
      omega
    · subst hs
      have hcount : List.count "RETRY" ("RUNNING" :: t) = List.count "RETRY" t := by
        simp [List.count_cons]
      rw [List.cons_append]
      have step : wait_for_completion ("RUNNING" :: (t ++ rest)) doc mr r c
          = wait_for_completion (t ++ rest) doc mr r (c + 1) := rfl
      rw [step, ih rest doc mr r (c + 1) ht (by omega), hcount]
      congr 1
      simp
      omega
    · subst hs
      have hcount : List.count "RETRY" ("RETRY" :: t) = List.count "RETRY" t + 1 := by
        simp [List.count_cons]
      have hrlt : r < mr := by rw [hcount] at hb; omega
      rw [List.cons_append]
      have step : wait_for_completion ("RETRY" :: (t ++ rest)) doc mr r c
          = wait_for_completion (t ++ rest) doc mr (r + 1) (c + 1) := by
        simp [wait_for_completion, hrlt]
      rw [step, ih rest doc mr (r + 1) (c + 1) ht (by rw [hcount] at hb; omega), hcount]
      congr 1
      · omega
      · simp
        omega

/-- Once more RETRY statuses remain than the budget allows (relative to the
current counter), the loop ends in the retry-exceeded failure, however the RETRY
statuses are interleaved with in-progress ones. -/
lemma retry_budget_aux : ∀ (ss : List String) (doc : J) (mr r c : Nat),
    (∀ s ∈ ss, s = "STARTED" ∨ s = "RUNNING" ∨ s = "RETRY") →
    r ≤ mr → mr < r + ss.count "RETRY" →
    (wait_for_completion ss doc mr r c).isRetryExceeded = true := by
  intro ss
  induction ss with
  | nil =>
    intro doc mr r c _ hr hlt
    simp [List.count_nil] at hlt
    omega
  | cons s t ih =>
    intro doc mr r c h hr hlt
    have hs := h s (List.mem_cons_self s t)
    have ht : ∀ x ∈ t, x = "STARTED" ∨ x = "RUNNING" ∨ x = "RETRY" :=
      fun x hx => h x (List.mem_cons_of_mem s hx)
    rcases hs with hs | hs | hs
    · subst hs
      have step : wait_for_completion ("STARTED" :: t) doc mr r c
          = wait_for_completion t doc mr r (c + 1) := rfl
      rw [step]
      apply ih doc mr r (c + 1) ht hr
      simp [List.count_cons] at hlt
      omega
    · subst hs
      have step : wait_for_completion ("RUNNING" :: t) doc mr r c
          = wait_for_completion t doc mr r (c + 1) := rfl
      rw [step]
      apply ih doc mr r (c + 1) ht hr
      simp [List.count_cons] at hlt
      omega
    · subst hs
      by_cases hrm : r < mr
      · have step : wait_for_completion ("RETRY" :: t) doc mr r c
            = wait_for_completion t doc mr (r + 1) (c + 1) := by
          simp [wait_for_completion, hrm]
        rw [step]
        apply ih doc mr (r + 1) (c + 1) ht (by omega)
        simp [List.count_cons] at hlt
        omega
      · have step : wait_for_completion ("RETRY" :: t) doc mr r c
            = .retryExceeded (c + 1) := by
          simp [wait_for_completion, hrm]
        rw [step]
        rfl

/-- The keys of every row built by `hit_row` are exactly the fixed column set. -/
lemma hit_row_keys : ∀ (h : J), (hit_row h).map Prod.fst = hmmer_columns :=
  fun _ => rfl

/-- Folding further fixed-key rows into the column accumulator leaves it
unchanged once it already holds the fixed column set. -/
lemma dfColumns_fixed_step : ∀ (rows : List (List (String × J))),
    (∀ r ∈ rows, r.map Prod.fst = hmmer_columns) →
    List.foldl (fun acc r => acc ++ (r.map Prod.fst).filter (fun k => k ∉ acc))
      hmmer_columns rows = hmmer_columns := by
  intro rows
  induction rows with
  | nil => intro _; rfl
  | cons r t ih =>
    intro h
    have hr := h r (List.mem_cons_self r t)
    have step : hmmer_columns ++ (r.map Prod.fst).filter (fun k => k ∉ hmmer_columns)
        = hmmer_columns := by
      rw [hr]
      decide
    rw [List.foldl_cons, step]
    exact ih (fun x hx => h x (List.mem_cons_of_mem r hx))

/-- The column index of a nonempty table of `hit_row` rows is the fixed set. -/
lemma dfColumns_hit_rows : ∀ (hs : List J), hs ≠ [] →
    dfColumns (hs.map hit_row) = hmmer_columns := by
  intro hs hne
  match hs with
  | [] => exact absurd rfl hne
  | h :: t =>
    show dfColumns (hit_row h :: t.map hit_row) = hmmer_columns
    unfold dfColumns
    rw [List.foldl_cons]
    have first : ([] : List String)
        ++ ((hit_row h).map Prod.fst).filter (fun k => k ∉ ([] : List String))
        = hmmer_columns := by
      rw [hit_row_keys]
      decide
    rw [first]
    apply dfColumns_fixed_step
    intro r hrm
    obtain ⟨x, _, rfl⟩ := List.mem_map.mp hrm
    exact hit_row_keys x

/-- The row loop of `parse_mapped_results` yields one row per results entry. -/
lemma build_rows_length : ∀ (l : List J) (rs : List (List (String × J))),
    build_rows l = .ok rs → rs.length = l.length := by
  intro l
  induction l with
  | nil =>
    intro rs h
    simp [build_rows] at h
    simp [← h]
  | cons e t ih =>
    intro rs h
    unfold build_rows at h
    cases hm : map_row e with
    | error err => rw [hm] at h; simp [Bind.bind, Except.bind] at h
    | ok row =>
      rw [hm] at h
      cases hb : build_rows t with
      | error err => rw [hb] at h; simp [Bind.bind, Except.bind] at h
      | ok rows =>
        rw [hb] at h
        simp only [Bind.bind, Except.bind] at h
        rw [← Except.ok.inj h]
        simp [ih rows hb]

/-- Every row produced by the row loop comes from some results entry. -/
lemma build_rows_mem : ∀ (l : List J) (rs : List (List (String × J))),
    build_rows l = .ok rs → ∀ r ∈ rs, ∃ e ∈ l, map_row e = .ok r := by
  intro l
  induction l with
  | nil =>
    intro rs h r hr
    simp [build_rows] at h
    subst h
    simp at hr
  | cons e t ih =>
    intro rs h r hr
    unfold build_rows at h
    cases hm : map_row e with
    | error err => rw [hm] at h; simp [Bind.bind, Except.bind] at h
    | ok row =>
      rw [hm] at h
      cases hb : build_rows t with
      | error err => rw [hb] at h; simp [Bind.bind, Except.bind] at h
      | ok rows =>
        rw [hb] at h
        simp only [Bind.bind, Except.bind] at h
        rw [← Except.ok.inj h] at hr
        rcases List.mem_cons.mp hr with hr | hr
        · exact ⟨e, List.mem_cons_self e t, by rw [hm, hr]⟩
        · obtain ⟨x, hx, hxr⟩ := ih rows hb r hr
          exact ⟨x, List.mem_cons_of_mem e hx, hxr⟩

/-- A successful `map_row` exposes the two subscripted fields of the entry. -/
lemma map_row_ok : ∀ (e : J) (r : List (String × J)), map_row e = .ok r →
    ∃ f t, jIndex e "from" = .ok f ∧ jIndex e "to" = .ok t
      ∧ r = [("uniprot", f), ("mapped_id", t)] := by
  intro e r h
  unfold map_row at h
  cases hf : jIndex e "from" with
  | error err => rw [hf] at h; simp [Bind.bind, Except.bind] at h
  | ok f =>
    rw [hf] at h
    cases htt : jIndex e "to" with
    | error err => rw [htt] at h; simp [Bind.bind, Except.bind] at h
    | ok t =>
      rw [htt] at h
      simp only [Bind.bind, Except.bind] at h
      exact ⟨f, t, rfl, rfl, (Except.ok.inj h).symm⟩

/-- The one-hit result document of the spec scenario: metadata holding only the
accession "P12345" and the species "Escherichia coli". -/
def c4_example_hit : J :=
  J.obj [("metadata",
    J.obj [("accession", J.str "P12345"), ("species", J.str "Escherichia coli")])]

/-- A well-formed hmmer result document with the given hits list. -/
def hmmer_doc (hs : List J) : J :=
  J.obj [("result", J.obj [("hits", J.arr hs)])]

/-- An ID-mapping response in which the identifier "P1" occurs both as the
`from` field of a mapped entry and in the `failedIds` list. -/
def c5_overlap_doc : J :=
  J.obj [("results", J.arr [J.obj [("from", J.str "P1"), ("to", J.str "X1")]]),
         ("failedIds", J.arr [J.str "P1"])]

/-- An ID-mapping response mapping "P1" and failing "P2". -/
def c5_ok_doc : J :=
  J.obj [("results", J.arr [J.obj [("from", J.str "P1"), ("to", J.str "X1")]]),
         ("failedIds", J.arr [J.str "P2"])]

/-- The table `parse_mapped_results` builds from `c5_ok_doc`. -/
def c5_ok_df : DataFrame :=
  pdDataFrame [[("uniprot", J.str "P1"), ("mapped_id", J.str "X1")]]

/-- The failed-ids list `parse_mapped_results` returns for `c5_ok_doc`. -/
def c5_ok_failed : List J := [J.str "P2"]

/-! Claim theorems. -/

/-- C1: for every status sequence ending in terminal-success — a SUCCESS status
preceded by any number of STARTED/RUNNING in-progress statuses —
`wait_for_completion` returns the full result document fetched right after the
first SUCCESS observation (one status GET per preceding poll, then the status
GET that saw SUCCESS plus the result GET), regardless of how many in-progress
statuses preceded it. -/
theorem poller_returns_first_success_fetch :
    ∀ (pre rest : List String) (doc : J) (mr : Nat),
    (∀ s ∈ pre, s = "STARTED" ∨ s = "RUNNING") →
    wait_for_completion (pre ++ "SUCCESS" :: rest) doc mr 0 0
      = .fetched doc (pre.length + 2) := by
  intro pre rest doc mr h
  have h3 : ∀ s ∈ pre, s = "STARTED" ∨ s = "RUNNING" ∨ s = "RETRY" := by
    intro s hs
    rcases h s hs with h1 | h1
    · exact Or.inl h1
    · exact Or.inr (Or.inl h1)
  have hcount : pre.count "RETRY" = 0 := by
    rw [List.count_eq_zero]
    intro hmem
    rcases h _ hmem with h1 | h1 <;> simp at h1
  rw [wait_consume pre _ doc mr 0 0 h3 (by omega)]
  have step : wait_for_completion ("SUCCESS" :: rest) doc mr
      (0 + pre.count "RETRY") (0 + pre.length) = .fetched doc (0 + pre.length + 2) := rfl
  rw [step]
  simp

/-- Witness for C1 at the concrete sequence [STARTED, RUNNING, SUCCESS]. -/
theorem poller_returns_first_success_fetch_witness :
    wait_for_completion ["STARTED", "RUNNING", "SUCCESS"] (J.str "resultdoc") 10 0 0
      = .fetched (J.str "resultdoc") 4 :=
  poller_returns_first_success_fetch ["STARTED", "RUNNING"] [] (J.str "resultdoc") 10
    (by decide)

/-- C2 counterexample: a status sequence containing 11 RETRY statuses — more
than the default budget of 10 — on which the poller does not fail at all: the
leading SUCCESS makes it fetch and return the result document after two GETs,
so the claim as stated (for every such sequence, failure with the retry-budget
error) is false. -/
theorem poller_retry_budget_cex :
    10 < List.count "RETRY" ("SUCCESS" :: List.replicate 11 "RETRY") ∧
    wait_for_completion ("SUCCESS" :: List.replicate 11 "RETRY") (J.str "doc") 10 0 0
      = .fetched (J.str "doc") 2 :=
  ⟨by decide, rfl⟩

/-- C2 amended: for every status sequence whose statuses before the
(max_retries + 1)-th RETRY are all in-progress or RETRY, the poller fails with
the retry-budget-exceeded error exactly upon reading that RETRY — after
pre.length + 1 HTTP calls — and consumes nothing further. -/
theorem poller_retry_budget_exceeded_halts :
    ∀ (pre rest : List String) (doc : J) (mr : Nat),
    (∀ s ∈ pre, s = "STARTED" ∨ s = "RUNNING" ∨ s = "RETRY") →
    List.count "RETRY" pre = mr →
    wait_for_completion (pre ++ "RETRY" :: rest) doc mr 0 0
      = .retryExceeded (pre.length + 1) := by
  intro pre rest doc mr h hc
  rw [wait_consume pre _ doc mr 0 0 h (by omega)]
  have hz : 0 + List.count "RETRY" pre = mr := by omega
  have hz2 : 0 + pre.length = pre.length := by omega
  rw [hz, hz2]
  simp [wait_for_completion]

/-- Witness for the amended C2: budget 1, failure on the second RETRY after two
status GETs. -/
theorem poller_retry_budget_exceeded_halts_witness :
    wait_for_completion ["RETRY", "RETRY"] (J.str "doc") 1 0 0 = .retryExceeded 2 :=
  poller_retry_budget_exceeded_halts ["RETRY"] [] (J.str "doc") 1 (by decide) (by decide)

/-- C3 counterexample: the ID-mapping poller `get_entry` does not fail on a
status value outside the known sets — on the sequence [ERROR, FINISHED] it
treats ERROR as in-progress, polls again, and returns normally after two status
GETs, so the claim that both pollers fail with an unexpected-status error on
first occurrence is false. -/
theorem mapping_poller_unknown_status_cex :
    get_entry ["ERROR", "FINISHED"] 0 = some 2 :=
  rfl

/-- C3 amended: `wait_for_completion` fails with the unexpected-status error
carrying the raw status string on the first occurrence of a status outside the
known sets (after any within-budget in-progress/RETRY prefix), while `get_entry`
treats every status other than FINISHED — unknown ones included — as
in-progress and simply polls again. -/
theorem unknown_status_first_occurrence :
    (∀ (pre rest : List String) (s : String) (doc : J) (mr : Nat),
      (∀ x ∈ pre, x = "STARTED" ∨ x = "RUNNING" ∨ x = "RETRY") →
      List.count "RETRY" pre ≤ mr →
      s ≠ "STARTED" → s ≠ "RUNNING" → s ≠ "RETRY" → s ≠ "SUCCESS" →
      wait_for_completion (pre ++ s :: rest) doc mr 0 0
        = .unexpected s (pre.length + 1)) ∧
    (∀ (s : String) (rest : List String) (c : Nat), s ≠ "FINISHED" →
      get_entry (s :: rest) c = get_entry rest (c + 1)) := by
  constructor
  · intro pre rest s doc mr h hb h1 h2 h3 h4
    rw [wait_consume pre _ doc mr 0 0 h (by omega)]
    simp [wait_for_completion, h1, h2, h3, h4]
  · intro s rest c h
    simp [get_entry, h]

/-- Witness for the amended C3: the search poller rejects the unknown status
PENDING after one in-progress poll; the mapping poller just keeps polling. -/
theorem unknown_status_first_occurrence_witness :
    wait_for_completion ["STARTED", "PENDING"] (J.str "doc") 10 0 0
      = .unexpected "PENDING" 2 ∧
    get_entry ["PENDING", "FINISHED"] 0 = get_entry ["FINISHED"] 1 :=
  ⟨unknown_status_first_occurrence.1 ["STARTED"] [] "PENDING" (J.str "doc") 10
      (by decide) (by decide) (by decide) (by decide) (by decide) (by decide),
   unknown_status_first_occurrence.2 "PENDING" ["FINISHED"] 0 (by decide)⟩

/-- C4 counterexample: on the empty result document — zero hits — the table
returned by `parse_results` has 0 rows but also no columns at all
(`pd.DataFrame([])` has an empty column index), so the claim that the column
set is the fixed five-column set including the N = 0 case is false. -/
theorem parse_results_empty_columns_cex :
    (parse_results (J.obj [])).rows.length = 0 ∧
    (parse_results (J.obj [])).columns = [] ∧
    (parse_results (J.obj [])).columns ≠ hmmer_columns :=
  ⟨rfl, rfl, by decide⟩

/-- C4 amended: for every raw result document with N hits the table has exactly
N rows; every row has exactly the fixed five keys (absent metadata fields
becoming null), and for N ≥ 1 the column set is exactly the fixed set — for
N = 0 the table is empty with no columns. The spec scenario holds: a one-hit
document whose metadata has only accession "P12345" and species
"Escherichia coli" yields one row with that accession and species and null in
the identifier (and the other) fields. -/
theorem parse_results_shape :
    ∀ (hs : List J),
    (parse_results (hmmer_doc hs)).rows.length = hs.length ∧
    (hs ≠ [] → (parse_results (hmmer_doc hs)).columns = hmmer_columns) ∧
    (∀ row ∈ (parse_results (hmmer_doc hs)).rows, row.map Prod.fst = hmmer_columns) ∧
    (parse_results (hmmer_doc [c4_example_hit])).rows
      = [[("accession", J.str "P12345"), ("identifier", J.null),
          ("uniprot accession", J.null), ("phylum", J.null),
          ("species", J.str "Escherichia coli")]] := by
  intro hs
  have hrw : parse_results (hmmer_doc hs) = pdDataFrame (hs.map hit_row) := rfl
  refine ⟨?_, ?_, ?_, rfl⟩
  · rw [hrw]
    simp [pdDataFrame]
  · intro hne
    rw [hrw]
    exact dfColumns_hit_rows hs hne
  · intro row hrow
    rw [hrw] at hrow
    obtain ⟨x, _, rfl⟩ := List.mem_map.mp hrow
    exact hit_row_keys x

/-- Witness for the amended C4 at the spec scenario document. -/
theorem parse_results_shape_witness :
    (parse_results (hmmer_doc [c4_example_hit])).rows.length = 1 ∧
    (parse_results (hmmer_doc [c4_example_hit])).columns = hmmer_columns :=
  ⟨(parse_results_shape [c4_example_hit]).1,
   (parse_results_shape [c4_example_hit]).2.1 (List.cons_ne_nil _ _)⟩

/-- C5 counterexample: on a raw response that lists "P1" both as the `from`
field of a mapped entry and in `failedIds`, `parse_mapped_results` returns "P1"
both as a mapped from-identifier and in the failed-ids list — the function does
not enforce the claimed disjointness, so the claim is false as stated. -/
theorem parse_mapped_results_overlap_cex :
    parse_mapped_results c5_overlap_doc
      = .ok (pdDataFrame [[("uniprot", J.str "P1"), ("mapped_id", J.str "X1")]],
             [J.str "P1"]) ∧
    J.str "P1" ∈ df_from_ids
      (pdDataFrame [[("uniprot", J.str "P1"), ("mapped_id", J.str "X1")]]) ∧
    J.str "P1" ∈ [J.str "P1"] := by
  refine ⟨rfl, ?_, List.mem_singleton.mpr rfl⟩
  have hfi : df_from_ids
      (pdDataFrame [[("uniprot", J.str "P1"), ("mapped_id", J.str "X1")]])
      = [J.str "P1"] := rfl
  rw [hfi]
  exact List.mem_singleton.mpr rfl

/-- C5 amended: whenever `parse_mapped_results` returns (every results entry
carries its `from` and `to` fields), it returns the mapped table and the
failed-ids list together; the mapped row count plus the failed-id count equals
the combined count of the raw `results` and `failedIds` lists, the failed-ids
list is the raw one verbatim, and no identifier appears both as a mapped from-id
and in the failed list provided the raw response itself keeps the two disjoint. -/
theorem parse_mapped_results_partition :
    ∀ (json_data : J) (df : DataFrame) (fl : List J),
    parse_mapped_results json_data = .ok (df, fl) →
    df.rows.length + fl.length
        = (jArr (jGet json_data "results" (J.arr []))).length
          + (jArr (jGet json_data "failedIds" (J.arr []))).length ∧
    fl = jArr (jGet json_data "failedIds" (J.arr [])) ∧
    ((∀ e ∈ jArr (jGet json_data "results" (J.arr [])),
        ∀ v, jIndex e "from" = .ok v → v ∉ fl) →
      ∀ v ∈ df_from_ids df, v ∉ fl) := by
  intro jd df fl h
  unfold parse_mapped_results at h
  cases hb : build_rows (jArr (jGet jd "results" (J.arr []))) with
  | error err => rw [hb] at h; simp [Bind.bind, Except.bind] at h
  | ok rows =>
    rw [hb] at h
    simp only [Bind.bind, Except.bind, pure, Except.pure] at h
    have hpair := Except.ok.inj h
    have hdf : df = pdDataFrame rows := (congrArg Prod.fst hpair).symm
    have hfl : fl = jArr (jGet jd "failedIds" (J.arr [])) :=
      (congrArg Prod.snd hpair).symm
    refine ⟨?_, hfl, ?_⟩
    · rw [hdf, hfl]
      show rows.length + _ = _
      rw [build_rows_length _ rows hb]
    · intro hdisj v hv
      rw [hdf] at hv
      obtain ⟨r, hr, hlook⟩ := List.mem_filterMap.mp hv
      obtain ⟨e, he, hme⟩ := build_rows_mem _ rows hb r hr
      obtain ⟨f, t, hf, _, rfl⟩ := map_row_ok e r hme
      have : v = f := by
        simp [List.lookup] at hlook
        exact hlook.symm
      rw [this]
      exact hdisj e he f hf

/-- Witness for the amended C5 at a response mapping "P1" and failing "P2". -/
theorem parse_mapped_results_partition_witness :
    c5_ok_df.rows.length + c5_ok_failed.length
      = (jArr (jGet c5_ok_doc "results" (J.arr []))).length
        + (jArr (jGet c5_ok_doc "failedIds" (J.arr []))).length :=
  (parse_mapped_results_partition c5_ok_doc c5_ok_df c5_ok_failed rfl).1

/-- C6: the code contradicts the classifier contract. On a hit whose id has the
GenBank-style prefix "gb" the classification raises TypeError — the call
startswith("gb", "emb", "dbj") passes "emb" and "dbj" as slice indices — instead
of bucketing the hit for mapping; only the "ref" prefix is classified without
error. -/
theorem blast_classify_gb_type_error :
    blast_classify "gb|M12345.1|" = .error .typeError ∧
    blast_classify "ref|NP_001023016.1|" = .ok true ∧
    blast_classify "pdb|1ABC|" = .error .typeError :=
  ⟨rfl, rfl, rfl⟩

/-- C7: the code contradicts the Submitter-then-Poller-then-Fetcher contract on
the ID-mapping path of the driver script: the hmmer-to-RefSeq mapping step of
main issues its result GET immediately after the submission POST, with no
status poll in between, so the result retrieval is issued for a job not known
to be in terminal-success state. -/
theorem mapping_path_fetches_without_polling :
    main_hmmer_mapping_events = [Ev.postSubmit, Ev.getResult] ∧
    Ev.getResult ∈ main_hmmer_mapping_events ∧
    Ev.getStatus ∉ main_hmmer_mapping_events :=
  ⟨rfl, by decide, by decide⟩

/-- C8: for every valid submission response containing the expected
job-identifier field, each submitter returns exactly that identifier unchanged
and issues exactly one submission POST — no retry at this layer. -/
theorem submitters_return_id_one_post :
    (∀ (fasta : String) (resp v : J), jIndex resp "id" = .ok v →
      (submit_hmmer_search fasta resp).2.2 = .ok v ∧
      (submit_hmmer_search fasta resp).2.1 = [Ev.postSubmit]) ∧
    (∀ (from_db to_db : String) (col : List (Option String)) (resp v : J),
      jIndex resp "jobId" = .ok v →
      (submit_id_mapping from_db to_db col resp).2.2 = .ok v ∧
      (submit_id_mapping from_db to_db col resp).2.1 = [Ev.postSubmit]) := by
  constructor
  · intro fasta resp v h
    exact ⟨h, rfl⟩
  · intro from_db to_db col resp v h
    exact ⟨h, rfl⟩

/-- Witness for C8 at the mock responses of the repository test suite. -/
theorem submitters_return_id_one_post_witness :
    (submit_hmmer_search ">x\nMTEIT" (J.obj [("id", J.str "job123")])).2.2
      = .ok (J.str "job123") ∧
    (submit_id_mapping "UniProtKB_AC-ID" "RefSeq_Protein" [some "P12345"]
      (J.obj [("jobId", J.str "mock_job_123")])).2.2 = .ok (J.str "mock_job_123") :=
  ⟨(submitters_return_id_one_post.1 ">x\nMTEIT" (J.obj [("id", J.str "job123")])
      (J.str "job123") rfl).1,
   (submitters_return_id_one_post.2 "UniProtKB_AC-ID" "RefSeq_Protein"
      [some "P12345"] (J.obj [("jobId", J.str "mock_job_123")])
      (J.str "mock_job_123") rfl).1⟩

/-- C9: the retry counter of `wait_for_completion` is cumulative over the whole
loop and never reset — any status sequence of in-progress and RETRY statuses
with more than max_retries RETRY statuses in total ends in the
retry-budget-exceeded failure, however the RETRY statuses are interleaved with
in-progress ones. -/
theorem retry_budget_cumulative :
    ∀ (ss : List String) (doc : J) (mr : Nat),
    (∀ s ∈ ss, s = "STARTED" ∨ s = "RUNNING" ∨ s = "RETRY") →
    mr < List.count "RETRY" ss →
    (wait_for_completion ss doc mr 0 0).isRetryExceeded = true := by
  intro ss doc mr h hlt
  exact retry_budget_aux ss doc mr 0 0 h (Nat.zero_le mr) (by omega)

/-- Witness for C9: budget 1, two RETRY statuses separated by an in-progress
status still exhaust the budget. -/
theorem retry_budget_cumulative_witness :
    (wait_for_completion ["RETRY", "STARTED", "RETRY"] (J.str "doc") 1 0 0).isRetryExceeded
      = true :=
  retry_budget_cumulative ["RETRY", "STARTED", "RETRY"] (J.str "doc") 1
    (by decide) (by decide)

/-- C10: for every input, the payload submitted by `submit_hmmer_search` binds
the database field to the fixed name "refprot"; the caller supplies only the
fasta sequence. -/
theorem hmmer_payload_database_refprot :
    ∀ (fasta : String) (resp : J),
    List.lookup "database" (submit_hmmer_search fasta resp).1
      = some (J.str "refprot") :=
  fun _ _ => rfl

/-- Witness for C10 at a concrete fasta sequence. -/
theorem hmmer_payload_database_refprot_witness :
    List.lookup "database" (submit_hmmer_search ">q\nMTEIT" (J.obj [])).1
      = some (J.str "refprot") :=
  hmmer_payload_database_refprot ">q\nMTEIT" (J.obj [])

end VennSearch
